import Mathlib

/-!
Shallow embedding of the cloudstack-csi-driver controller service, cloud
connector and node helpers, together with theorems checking the repository's
natural-language specification against the embedded code.

Modelling conventions:
* Go machine integers (`int64`, `int`) are modelled as `Int`; Go strings as
  Lean `String` at character granularity (the strings handled here - UUIDs,
  zone identifiers, decimal tokens - are ASCII, where byte and character
  indexing agree).
* Fallible Go functions returning `(T, error)` are modelled as `Except`;
  `nil`-able pointers and maps as `Option`.
* Calls into the CloudStack client library are oracle parameters: the
  controller model takes a `Connector` record of functions and is proved
  correct for every oracle.
* A Go runtime panic (index out of range) is modelled as `none` of an
  `Option`-valued result, never silently absorbed.
-/

namespace CloudstackCSI

/-- One gibibyte, 2^30 bytes (constant `giB` in the source). -/
def giB : Int := 1073741824

/-- Modelled from the spec: `RoundUpBytesToGB` lives in `pkg/util` (`gb.go`),
which is absent from the provided sources (only its test `gb_test.go` is
present). The spec defines it as `ceil(b / 2^30)` for `b ≥ 0`; for a positive
divisor `d`, `ceil(b / d) = (b + d - 1) / d` with floor (Euclidean) division. -/
def RoundUpBytesToGB (b : Int) : Int := (b + (giB - 1)) / giB

/-- Modelled from the spec: `GigaBytesToBytes(g) = g · 2^30` (`pkg/util/gb.go`,
absent from the provided sources; pinned by `gb_test.go`). -/
def GigaBytesToBytes (gb : Int) : Int := gb * giB

/-- Claim-side ceiling of `b / 2^30`, written independently of
`RoundUpBytesToGB` as `-((-b) / 2^30)` (ceil is the negated floor of the
negation). -/
def ceilDivGiB (b : Int) : Int := -((-b) / giB)

/-- The two ceiling formulas agree on every integer. -/
theorem roundUpBytesToGB_eq_ceilDivGiB (b : Int) : RoundUpBytesToGB b = ceilDivGiB b := by
  unfold RoundUpBytesToGB ceilDivGiB giB
  omega

/-- `RoundUpBytesToGB` reproduces every vector of the repository's
`TestRoundUpBytesToGB` (`pkg/util/gb_test.go`). -/
theorem roundUpBytesToGB_test_vectors :
    RoundUpBytesToGB 100 = 1 ∧
    RoundUpBytesToGB 3221225472 = 3 ∧
    RoundUpBytesToGB 3000000000 = 3 ∧
    RoundUpBytesToGB (50 * 1024 * 1024 * 1024) = 50 ∧
    RoundUpBytesToGB (50 * 1024 * 1024 * 1024 - 1) = 50 ∧
    RoundUpBytesToGB (50 * 1024 * 1024 * 1024 + 1) = 51 := by
  refine ⟨?_, ?_, ?_, ?_, ?_, ?_⟩ <;> (unfold RoundUpBytesToGB giB; norm_num)

/-! ## Topology (`pkg/driver/topology.go`, keys from the driver constants) -/

/-- `DriverName` constant. -/
def DriverName : String := "csi.cloudstack.apache.org"

/-- `ZoneKey` topology segment key. -/
def ZoneKey : String := "topology." ++ DriverName ++ "/zone"

/-- `HostKey` topology segment key. -/
def HostKey : String := "topology." ++ DriverName ++ "/host"

/-- `DiskOfferingKey` volume parameter key. -/
def DiskOfferingKey : String := DriverName ++ "/disk-offering-id"

/-- Lookup in a Go map modelled as an association list with distinct keys
(`m[k]` with the `, ok` form giving `Option`). -/
def lookupSeg (segs : List (String × String)) (k : String) : Option String :=
  match segs with
  | [] => none
  | (k', v) :: rest => if k' = k then some v else lookupSeg rest k

/-- A `*csi.Topology`: its `Segments` map, `none` when the map is `nil`. -/
structure CSITopology where
  segments : Option (List (String × String))
deriving DecidableEq, Repr

/-- `driver.Topology`: CloudStack storage topology. -/
structure Topology where
  ZoneID : String
  HostID : String
deriving DecidableEq, Repr

/-- `NewTopology` converts a `*csi.Topology` to `Topology` (errors modelled
with `Except`). -/
def NewTopology (t : CSITopology) : Except String Topology :=
  match t.segments with
  | none => .error "nil segment in topology"
  | some segments =>
    match lookupSeg segments ZoneKey with
    | none => .error "no zone in topology"
    | some zoneID =>
      let hostID := (lookupSeg segments HostKey).getD ""
      .ok ⟨zoneID, hostID⟩

/-- `Topology.ToCSI` converts a `Topology` to a `*csi.Topology`: the segments
map always carries the zone key and carries the host key only when `HostID`
is non-empty. -/
def Topology.toCSI (t : Topology) : CSITopology :=
  ⟨some ((ZoneKey, t.ZoneID) :: (if t.HostID ≠ "" then [(HostKey, t.HostID)] else []))⟩

/-- C8: For every `Topology` value `t` (any `ZoneID` string, any `HostID`
string, including empty `HostID`), converting `t` to a CSI topology with
`ToCSI` and parsing it back with `NewTopology` succeeds and yields `t`
again. -/
theorem topology_toCSI_newTopology_roundtrip (t : Topology) :
    NewTopology t.toCSI = .ok t := by
  obtain ⟨z, hid⟩ := t
  unfold NewTopology Topology.toCSI
  by_cases h : hid = ""
  · simp [h, lookupSeg, show ¬ (ZoneKey = HostKey) by decide]
  · simp [h, lookupSeg, show ¬ (ZoneKey = HostKey) by decide]

/-! ## Decimal strings (`strconv.FormatInt`, `strconv.Itoa`, `strconv.Atoi`)
and `strings.Contains` -/

/-- The ASCII digit character for `d < 10`. -/
def digitChar (d : Nat) : Char := Char.ofNat (48 + d)

/-- Fuel-indexed decimal digit emitter (most significant digit first);
`natDigits` supplies sufficient fuel, making the definition structural and
kernel-reducible. -/
def natDigitsAux : Nat → Nat → List Char
  | 0, _ => []
  | fuel + 1, n =>
    if n < 10 then [digitChar n]
    else natDigitsAux fuel (n / 10) ++ [digitChar (n % 10)]

/-- Decimal digits of a natural number, most significant first. -/
def natDigits (n : Nat) : List Char := natDigitsAux (n + 1) n

/-- `strconv.FormatInt(i, 10)`; `strconv.Itoa` is the same function on the
platform `int`. -/
def goFormatInt (i : Int) : String :=
  if i < 0 then String.mk ('-' :: natDigits i.natAbs) else String.mk (natDigits i.toNat)

/-- Numeric value of an ASCII digit character, `none` for any other char. -/
def digitVal (c : Char) : Option Nat :=
  if 48 ≤ c.toNat ∧ c.toNat ≤ 57 then some (c.toNat - 48) else none

/-- Accumulating decimal parser over characters. -/
def parseDigitsAux (acc : Nat) : List Char → Option Nat
  | [] => some acc
  | c :: rest =>
    match digitVal c with
    | none => none
    | some d => parseDigitsAux (acc * 10 + d) rest

/-- Parse a non-empty all-digit character list. -/
def parseDigits (l : List Char) : Option Nat :=
  match l with
  | [] => none
  | _ => parseDigitsAux 0 l

/-- `strconv.Atoi`: optional single sign, decimal digits, 64-bit range check
(`Atoi` reports `ErrRange` out of range, an error for the caller). -/
def goAtoi (s : String) : Option Int :=
  match s.toList with
  | [] => none
  | c :: rest =>
    let digits := if c = '+' ∨ c = '-' then rest else c :: rest
    match parseDigits digits with
    | none => none
    | some n =>
      let v : Int := if c = '-' then -(n : Int) else (n : Int)
      if v < -(2 ^ 63) ∨ 2 ^ 63 - 1 < v then none else some v

/-- `strings.Contains(s, substr)`. -/
def stringsContains (s substr : String) : Bool :=
  decide (List.IsInfix substr.toList s.toList)

theorem natDigitsAux_fuel (n : Nat) :
    ∀ f1 f2, n < f1 → n < f2 → natDigitsAux f1 n = natDigitsAux f2 n := by
  induction n using Nat.strong_induction_on with
  | _ n ih =>
    intro f1 f2 h1 h2
    match f1, f2 with
    | a + 1, b + 1 =>
      simp only [natDigitsAux]
      by_cases h : n < 10
      · simp [h]
      · simp only [if_neg h]
        have hd : n / 10 < n := Nat.div_lt_self (by omega) (by omega)
        rw [ih (n / 10) hd a b (by omega) (by omega)]

theorem natDigitsAux_succ (fuel n : Nat) :
    natDigitsAux (fuel + 1) n =
      if n < 10 then [digitChar n]
      else natDigitsAux fuel (n / 10) ++ [digitChar (n % 10)] := rfl

theorem natDigits_eq (n : Nat) :
    natDigits n = if n < 10 then [digitChar n]
      else natDigits (n / 10) ++ [digitChar (n % 10)] := by
  unfold natDigits
  rw [natDigitsAux_succ]
  by_cases h : n < 10
  · simp [h]
  · rw [if_neg h, if_neg h]
    have hd : n / 10 < n := Nat.div_lt_self (by omega) (by omega)
    rw [natDigitsAux_fuel (n / 10) n (n / 10 + 1) (by omega) (by omega)]

theorem natDigits_ne_nil (n : Nat) : natDigits n ≠ [] := by
  rw [natDigits_eq]
  by_cases h : n < 10 <;> simp [h]

theorem natDigits_mem_digitChar (n : Nat) :
    ∀ c ∈ natDigits n, ∃ d, d < 10 ∧ c = digitChar d := by
  induction n using Nat.strong_induction_on with
  | _ n ih =>
    rw [natDigits_eq]
    by_cases h : n < 10
    · simp only [h, if_true, List.mem_singleton]
      intro c hc
      exact ⟨n, h, hc⟩
    · simp only [h, if_false, List.mem_append, List.mem_singleton]
      intro c hc
      rcases hc with hc | hc
      · exact ih (n / 10) (Nat.div_lt_self (by omega) (by omega)) c hc
      · exact ⟨n % 10, Nat.mod_lt _ (by omega), hc⟩

theorem digitVal_digitChar (d : Nat) (h : d < 10) : digitVal (digitChar d) = some d := by
  interval_cases d <;> rfl

theorem digitChar_ne_plus (d : Nat) (h : d < 10) : digitChar d ≠ '+' := by
  interval_cases d <;> decide

theorem digitChar_ne_minus (d : Nat) (h : d < 10) : digitChar d ≠ '-' := by
  interval_cases d <;> decide

theorem parseDigitsAux_append (acc : Nat) (l1 l2 : List Char) :
    parseDigitsAux acc (l1 ++ l2) =
      match parseDigitsAux acc l1 with
      | none => none
      | some a => parseDigitsAux a l2 := by
  induction l1 generalizing acc with
  | nil => simp [parseDigitsAux]
  | cons c rest ih =>
    simp only [List.cons_append, parseDigitsAux]
    cases hdv : digitVal c with
    | none => rfl
    | some d => simp [ih]

theorem parseDigitsAux_natDigits (n : Nat) :
    ∀ acc, parseDigitsAux acc (natDigits n) =
      some (acc * 10 ^ (natDigits n).length + n) := by
  induction n using Nat.strong_induction_on with
  | _ n ih =>
    intro acc
    by_cases h : n < 10
    · rw [natDigits_eq, if_pos h]
      simp only [parseDigitsAux, digitVal_digitChar n h, List.length_singleton, pow_one]
    · have hd : n / 10 < n := Nat.div_lt_self (by omega) (by omega)
      rw [natDigits_eq, if_neg h]
      rw [parseDigitsAux_append, ih (n / 10) hd acc]
      simp only [parseDigitsAux, digitVal_digitChar (n % 10) (Nat.mod_lt _ (by omega)),
        List.length_append, List.length_singleton]
      have hDC : acc * 10 ^ ((natDigits (n / 10)).length + 1) =
          acc * 10 ^ (natDigits (n / 10)).length * 10 := by
        rw [pow_succ]; ring
      congr 1
      omega

theorem parseDigits_natDigits (n : Nat) : parseDigits (natDigits n) = some n := by
  unfold parseDigits
  cases hd : natDigits n with
  | nil => exact absurd hd (natDigits_ne_nil n)
  | cons c rest =>
    have h := parseDigitsAux_natDigits n 0
    rw [hd] at h
    simpa using h

theorem goAtoi_goFormatInt (i : Int) (h0 : 0 ≤ i) (h1 : i < 2 ^ 63) :
    goAtoi (goFormatInt i) = some i := by
  unfold goFormatInt
  rw [if_neg (by omega)]
  unfold goAtoi
  have hlist : (String.mk (natDigits i.toNat)).toList = natDigits i.toNat := rfl
  rw [hlist]
  cases hd : natDigits i.toNat with
  | nil => exact absurd hd (natDigits_ne_nil _)
  | cons c rest =>
    have hc : ∃ d, d < 10 ∧ c = digitChar d := by
      apply natDigits_mem_digitChar i.toNat
      rw [hd]; exact List.mem_cons_self c rest
    obtain ⟨d, hdlt, hcd⟩ := hc
    have hplus : ¬ (c = '+' ∨ c = '-') := by
      rw [hcd]
      push_neg
      exact ⟨digitChar_ne_plus d hdlt, digitChar_ne_minus d hdlt⟩
    simp only [if_neg hplus]
    have hparse : parseDigits (c :: rest) = some i.toNat := by
      rw [← hd]; exact parseDigits_natDigits i.toNat
    rw [hparse]
    have hcminus : ¬ (c = '-') := by
      rw [hcd]; exact digitChar_ne_minus d hdlt
    simp only [if_neg hcminus]
    rw [if_neg (by omega)]
    congr 1
    omega

/-! ## Cloud data model (`pkg/cloud/cloud.go`) and connector-level functions
(`pkg/cloud/volumes.go`, `pkg/cloud/snapshots.go`) -/

/-- The connector's closed error taxonomy (`ErrNotFound`, `ErrTooManyResults`,
`ErrAlreadyExists`) plus opaque cloud errors carried as `other`. -/
inductive ConnErr
  | notFound
  | tooManyResults
  | alreadyExists
  | other (msg : String)
deriving DecidableEq, Repr

/-- `cloud.Volume`. -/
structure Volume where
  ID : String
  Name : String
  Size : Int
  DiskOfferingID : String
  DomainID : String
  ProjectID : String
  ZoneID : String
  VirtualMachineID : String
  DeviceID : String
deriving DecidableEq, Repr

/-- `cloud.Snapshot`. -/
structure Snapshot where
  ID : String
  Name : String
  Size : Int
  DomainID : String
  ProjectID : String
  ZoneID : String
  VolumeID : String
  CreatedAt : String
deriving DecidableEq, Repr

/-- The fields of the raw CloudStack API volume object
(`cloudstack.Volume` of the client library) read by the conversions in
`listVolumes` and `CreateVolumeFromSnapshot`, plus `State` (read by
`ExpandVolume`). -/
structure APIVolume where
  Id : String
  Name : String
  Size : Int
  Diskofferingid : String
  Domainid : String
  Projectid : String
  Zoneid : String
  Virtualmachineid : String
  Deviceid : Int
  State : String
deriving DecidableEq, Repr

/-- The `cloud.Volume` built from a raw API volume. This single conversion is
written out verbatim twice in the source, in `client.listVolumes`
(`volumes.go` lines 46-56, behind `GetVolumeByID` and `GetVolumeByName`) and
in `client.CreateVolumeFromSnapshot` (`volumes.go` lines 203-213); both set
`DeviceID := strconv.FormatInt(vol.Deviceid, 10)` unconditionally. -/
def volumeFromAPI (vol : APIVolume) : Volume :=
  { ID := vol.Id
    Name := vol.Name
    Size := vol.Size
    DiskOfferingID := vol.Diskofferingid
    DomainID := vol.Domainid
    ProjectID := vol.Projectid
    ZoneID := vol.Zoneid
    VirtualMachineID := vol.Virtualmachineid
    DeviceID := goFormatInt vol.Deviceid }

/-- `client.DeleteVolume` (`volumes.go`): issues the cloud API delete, whose
result is the oracle `apiResult` (`none` = success, `some msg` = cloud error
with message `msg`); an error whose message contains `4350` (CloudStack
`InvalidParameterValueException`) is remapped to `ErrNotFound`, any other
result is passed through. -/
def clientDeleteVolume (apiResult : Option String) : Option ConnErr :=
  match apiResult with
  | none => none
  | some msg =>
    if stringsContains msg "4350" then some .notFound else some (.other msg)

/-- Error cases of `client.ExpandVolume`, one per `fmt.Errorf` site. -/
inductive ExpandErr
  | retrieveFailed (msg : String)
  | notAllocatedOrReady
  | resizeFailed (msg : String)
deriving DecidableEq, Repr

/-- Result of `client.ExpandVolume` together with whether the cloud
`ResizeVolume` API call was issued. -/
structure ExpandOutcome where
  result : Except ExpandErr Unit
  calledResize : Bool
deriving Repr

/-- `client.ExpandVolume` (`volumes.go` lines 147-176). The library calls
`GetVolumeByID` and `ResizeVolume` are oracles. The volume must be in state
`Allocated` or `Ready`, otherwise the function errors out before the resize
call ever happens. -/
def clientExpandVolume (getVolume : Except String APIVolume)
    (resize : Int → Except String Unit) (newSizeInGB : Int) : ExpandOutcome :=
  match getVolume with
  | .error msg => ⟨.error (.retrieveFailed msg), false⟩
  | .ok volume =>
    if volume.State ≠ "Allocated" ∧ volume.State ≠ "Ready" then
      ⟨.error .notAllocatedOrReady, false⟩
    else
      match resize newSizeInGB with
      | .error msg => ⟨.error (.resizeFailed msg), true⟩
      | .ok _ => ⟨.ok (), true⟩

/-! ## Node mount helper (`pkg/mount/mount.go`) -/

/-- `strings.ReplaceAll(uuid, "-", "")`: replacing every single-character
occurrence of `-` by the empty string is exactly dropping the hyphens. -/
def stringsReplaceAllHyphen (s : String) : String :=
  String.mk (s.toList.filter (fun c => c ≠ '-'))

/-- `diskUUIDToSerial`: CloudStack's KVM translation of a volume UUID to a
libvirt disk serial (remove hyphens; truncate to the first 20 characters when
at least 20 remain). Go slices bytes; UUIDs are ASCII, where bytes and
characters coincide. -/
def diskUUIDToSerial (uuid : String) : String :=
  let uuidWithoutHyphen := stringsReplaceAllHyphen uuid
  if uuidWithoutHyphen.length < 20 then uuidWithoutHyphen
  else String.mk (uuidWithoutHyphen.toList.take 20)

/-! ## Controller service (`controller.go` in `pkg/driver`) -/

/-- `csi.CapacityRange` (both fields `int64`; `GetRequiredBytes`/`GetLimitBytes`
default to 0). -/
structure CapacityRange where
  requiredBytes : Int
  limitBytes : Int
deriving DecidableEq, Repr

/-- `csi.VolumeCapability`, reduced to the only field the driver reads: the
access mode, `none` when `GetAccessMode()` is nil. Modes are the CSI enum
numerals. -/
structure VolumeCapability where
  accessMode : Option Int
deriving DecidableEq, Repr

/-- The CSI `SINGLE_NODE_WRITER` access mode (`onlyVolumeCapAccessMode`). -/
def SINGLE_NODE_WRITER : Int := 1

/-- `isValidVolumeCapabilities`: false as soon as some capability carries a
non-nil access mode different from SINGLE_NODE_WRITER. -/
def isValidVolumeCapabilities (volCaps : List VolumeCapability) : Bool :=
  match volCaps with
  | [] => true
  | c :: rest =>
    match c.accessMode with
    | some m => if m ≠ SINGLE_NODE_WRITER then false else isValidVolumeCapabilities rest
    | none => isValidVolumeCapabilities rest

/-- gRPC status codes used by the controller. -/
inductive CSICode
  | invalidArgument
  | aborted
  | alreadyExists
  | notFound
  | internal
  | outOfRange
deriving DecidableEq, Repr

/-- A gRPC error status (code plus message). -/
structure CSIError where
  code : CSICode
  msg : String
deriving DecidableEq, Repr

/-- `csi.TopologyRequirement`, reduced to the `Requisite` list (`none` for a
nil slice; gRPC decoding never produces a non-nil empty slice). -/
structure TopologyRequirement where
  requisite : Option (List CSITopology)
deriving DecidableEq, Repr

/-- `determineSize` (`controller.go` lines 267-291). -/
def determineSize (capacityRange : Option CapacityRange) : Except String Int :=
  match capacityRange with
  | none =>
    -- sizeInGB stays 0 through the body, so the final default sets it to 1
    .ok 1
  | some capRange =>
    let required := capRange.requiredBytes
    let rounded := RoundUpBytesToGB required
    let sizeInGB := if rounded = 0 then 1 else rounded
    let limit := capRange.limitBytes
    if limit > 0 ∧ GigaBytesToBytes sizeInGB > limit then
      .error "after round-up, volume size exceeds the limit specified"
    else
      -- sizeInGB is non-zero here, so the final default does not fire
      .ok sizeInGB

/-- The capacity-range part of `checkVolumeSuitable` (`controller.go` lines
241-248): `some` is the early `return false` with its diagnostic, `none`
means the check passed. -/
def capRangeFailure (vol : Volume) (capRange : Option CapacityRange) :
    Option (Bool × String) :=
  match capRange with
  | none => none
  | some cr =>
    if cr.limitBytes > 0 ∧ vol.Size > cr.limitBytes then
      some (false, "Disk size bytes greater than requested limit size bytes")
    else if cr.requiredBytes > 0 ∧ vol.Size < cr.requiredBytes then
      some (false, "Disk size bytes less than requested required size bytes")
    else none

/-- The topology part of `checkVolumeSuitable` (`controller.go` lines
250-264). The overall `none` models the Go runtime panic of `reqTopology[0]`
on a non-nil empty requisite slice. -/
def topoSuitable (vol : Volume) (topologyRequirement : Option TopologyRequirement) :
    Option (Bool × String) :=
  match topologyRequirement with
  | none => some (true, "")
  | some tr =>
    match tr.requisite with
    | none => some (true, "")
    | some reqTopology =>
      if reqTopology.length > 1 then some (false, "Too many topology requirements")
      else
        match reqTopology.head? with
        | none => none
        | some t0 =>
          match NewTopology t0 with
          | .error _ => some (false, "Cannot parse topology requirements")
          | .ok t =>
            if t.ZoneID ≠ vol.ZoneID then
              some (false, "Volume in a different zone than requested")
            else some (true, "")

/-- `checkVolumeSuitable` (`controller.go` lines 234-265); `none` models the
index-out-of-range panic. -/
def checkVolumeSuitable (vol : Volume) (diskOfferingID : String)
    (capRange : Option CapacityRange)
    (topologyRequirement : Option TopologyRequirement) : Option (Bool × String) :=
  if vol.DiskOfferingID ≠ diskOfferingID then
    some (false, "Disk offering mismatch")
  else
    match capRangeFailure vol capRange with
    | some r => some r
    | none => topoSuitable vol topologyRequirement

/-- The CloudStack connector as seen by the controller: one oracle function
per `cloud.Interface` method the modelled RPCs use. -/
structure Connector where
  getVolumeByName : String → Except ConnErr Volume
  getVolumeByID : String → Except ConnErr Volume
  getSnapshotByID : String → Except ConnErr Snapshot
  createVolumeFromSnapshot : String → String → String → String → Int → Except ConnErr Volume
  listZonesID : Except ConnErr (List String)
  createVolume : String → String → String → Int → Except ConnErr String

/-- `csi.CreateVolumeRequest`, reduced to the fields the handler reads.
`parameters` is `none` for a nil map. `volumeContentSourceSnapshotID` is
`none` when `GetVolumeContentSource()` or its snapshot is nil, `some id`
(possibly empty) otherwise. -/
structure CreateVolumeRequest where
  name : String
  volumeCapabilities : List VolumeCapability
  parameters : Option (List (String × String))
  capacityRange : Option CapacityRange
  accessibilityRequirements : Option TopologyRequirement
  volumeContentSourceSnapshotID : Option String
deriving Repr

/-- The `csi.Volume` in a `CreateVolumeResponse`, reduced to the fields the
claims speak about (`VolumeContext` always echoes the request parameters and
is omitted). -/
structure CSIVolume where
  volumeId : String
  capacityBytes : Int
  accessibleTopology : List CSITopology
deriving DecidableEq, Repr

/-- `CreateVolume` result plus which connector creation calls were issued. -/
structure CreateVolumeOutcome where
  result : Except CSIError CSIVolume
  calledCreateVolume : Bool
  calledCreateVolumeFromSnapshot : Bool
deriving Repr

/-- Zone determination of `CreateVolume` when no requisite topology is given
(`controller.go` lines 175-185): a random zone from `ListZonesID`. The random
draw `rand.Intn(n)` is modelled by the oracle `zonePick` reduced mod `n`,
which ranges over exactly the indices `0 ≤ i < n`. -/
def pickRandomZone (conn : Connector) (zonePick : Nat) : Except CSIError String :=
  match conn.listZonesID with
  | .error _ => .error ⟨.invalidArgument, "cannot list zones"⟩
  | .ok zones =>
    if zones.length = 0 then .error ⟨.internal, "No zone available"⟩
    else .ok (zones.getD (zonePick % zones.length) "")

/-- The tail of `CreateVolume` (`controller.go` lines 116-222) once the
request passed validation and the by-name lookup found nothing: content
source extraction, `determineSize`, the snapshot path, zone determination and
the final `CreateVolume` connector call. `none` models the
index-out-of-range panic on a non-nil empty requisite slice. -/
def createVolumeNew (conn : Connector) (zonePick : Nat)
    (req : CreateVolumeRequest) (diskOfferingID : String) :
    Option CreateVolumeOutcome :=
  let snapshotID := req.volumeContentSourceSnapshotID.getD ""
  match determineSize req.capacityRange with
  | .error msg => some ⟨.error ⟨.invalidArgument, msg⟩, false, false⟩
  | .ok sizeInGB =>
    if snapshotID ≠ "" then
      match conn.getSnapshotByID snapshotID with
      | .error .notFound => some ⟨.error ⟨.notFound, "Snapshot not found"⟩, false, false⟩
      | .error _ => some ⟨.error ⟨.internal, "CloudStack error"⟩, false, false⟩
      | .ok snapshot =>
        let snapshotSizeGiB := RoundUpBytesToGB snapshot.Size
        let sizeInGB := if snapshotSizeGiB > sizeInGB then snapshotSizeGiB else sizeInGB
        match conn.createVolumeFromSnapshot snapshot.ZoneID req.name snapshot.ProjectID
            snapshotID sizeInGB with
        | .error _ =>
          some ⟨.error ⟨.internal, "Cannot create volume from snapshot"⟩, false, true⟩
        | .ok volFromSnapshot =>
          some ⟨.ok ⟨volFromSnapshot.ID, volFromSnapshot.Size,
            [Topology.toCSI ⟨volFromSnapshot.ZoneID, ""⟩]⟩, false, true⟩
    else
      let zoneRes : Option (Except CSIError String) :=
        match req.accessibilityRequirements with
        | none => some (pickRandomZone conn zonePick)
        | some tr =>
          match tr.requisite with
          | none => some (pickRandomZone conn zonePick)
          | some reqTopology =>
            if reqTopology.length > 1 then
              some (.error ⟨.invalidArgument, "Too many topology requirements"⟩)
            else
              match reqTopology.head? with
              | none => none
              | some t0 =>
                match NewTopology t0 with
                | .error _ =>
                  some (.error ⟨.invalidArgument, "Cannot parse topology requirements"⟩)
                | .ok t => some (.ok t.ZoneID)
      match zoneRes with
      | none => none
      | some (.error e) => some ⟨.error e, false, false⟩
      | some (.ok zoneID) =>
        match conn.createVolume diskOfferingID zoneID req.name sizeInGB with
        | .error _ => some ⟨.error ⟨.internal, "Cannot create volume"⟩, true, false⟩
        | .ok volID =>
          some ⟨.ok ⟨volID, GigaBytesToBytes sizeInGB, [Topology.toCSI ⟨zoneID, ""⟩]⟩,
            true, false⟩

/-- `controllerServer.CreateVolume` (`controller.go` lines 54-223). The
identifier lock is modelled as uncontended (a contended lock returns
`Aborted` before anything else happens and is outside the claims). `none`
models the index-out-of-range panic. -/
def createVolume (conn : Connector) (zonePick : Nat) (req : CreateVolumeRequest) :
    Option CreateVolumeOutcome :=
  if req.name = "" then
    some ⟨.error ⟨.invalidArgument, "Volume name missing in request"⟩, false, false⟩
  else if req.volumeCapabilities.length = 0 then
    some ⟨.error ⟨.invalidArgument, "Volume capabilities missing in request"⟩, false, false⟩
  else if ¬ isValidVolumeCapabilities req.volumeCapabilities then
    some ⟨.error ⟨.invalidArgument,
      "Volume capabilities not supported. Only SINGLE_NODE_WRITER supported."⟩, false, false⟩
  else
    match req.parameters with
    | none =>
      some ⟨.error ⟨.invalidArgument, "Volume parameters missing in request"⟩, false, false⟩
    | some params =>
      let diskOfferingID := (lookupSeg params DiskOfferingKey).getD ""
      if diskOfferingID = "" then
        some ⟨.error ⟨.invalidArgument, "Missing disk offering parameter"⟩, false, false⟩
      else
        match conn.getVolumeByName req.name with
        | .error e =>
          if e ≠ .notFound then
            some ⟨.error ⟨.internal, "CloudStack error"⟩, false, false⟩
          else
            createVolumeNew conn zonePick req diskOfferingID
        | .ok vol =>
          match checkVolumeSuitable vol diskOfferingID req.capacityRange
              req.accessibilityRequirements with
          | none => none
          | some (ok, _message) =>
            if ¬ ok then
              some ⟨.error ⟨.alreadyExists,
                "Volume already exists but does not satisfy request"⟩, false, false⟩
            else
              some ⟨.ok ⟨vol.ID, vol.Size, [Topology.toCSI ⟨vol.ZoneID, ""⟩]⟩, false, false⟩

/-- `controllerServer.DeleteVolume` (`controller.go` lines 293-328), with both
locks modelled as uncontended and the connector's delete as an oracle. -/
def controllerDeleteVolume (connDelete : String → Option ConnErr)
    (volumeID : String) : Except CSIError Unit :=
  if volumeID = "" then .error ⟨.invalidArgument, "Volume ID missing in request"⟩
  else
    match connDelete volumeID with
    | some e => if e ≠ .notFound then .error ⟨.internal, "Cannot delete volume"⟩ else .ok ()
    | none => .ok ()

/-- `controllerServer.ValidateVolumeCapabilities` response: `confirmed` is
whether the `Confirmed` block (which echoes context, capabilities and
parameters) is present. -/
structure ValidateCapsResponse where
  confirmed : Bool
  message : String
deriving DecidableEq, Repr

/-- `controllerServer.ValidateVolumeCapabilities` (`controller.go` lines
593-625). -/
def validateVolumeCapabilities (conn : Connector) (volumeID : String)
    (volCaps : List VolumeCapability) : Except CSIError ValidateCapsResponse :=
  -- the source tests len(volumeID) == 0, equivalent to the empty string
  if volumeID = "" then .error ⟨.invalidArgument, "Volume ID not provided"⟩
  else if volCaps.length = 0 then
    .error ⟨.invalidArgument, "Volume capabilities not provided"⟩
  else
    match conn.getVolumeByID volumeID with
    | .error .notFound => .error ⟨.notFound, "Volume not found"⟩
    | .error _ => .error ⟨.internal, "CloudStack error"⟩
    | .ok _ =>
      if ¬ isValidVolumeCapabilities volCaps then
        .ok ⟨false, "Requested VolumeCapabilities are invalid"⟩
      else .ok ⟨true, ""⟩

/-- A `ListSnapshotsResponse_Entry`, reduced to the identifier fields (the
creation timestamp is parsed from `CreatedAt` and not modelled). -/
structure ListSnapshotsEntry where
  snapshotId : String
  sourceVolumeId : String
deriving DecidableEq, Repr

/-- The entry built from a connector snapshot in the `ListSnapshots` loop. -/
def snapshotEntry (snap : Snapshot) : ListSnapshotsEntry := ⟨snap.ID, snap.VolumeID⟩

/-- `csi.ListSnapshotsResponse`, reduced to entries and the next token. -/
structure ListSnapshotsResponse where
  entries : List ListSnapshotsEntry
  nextToken : String
deriving DecidableEq, Repr

/-- The pagination logic of `controllerServer.ListSnapshots` (`controller.go`
lines 378-420) applied to the list the connector returned: parse
`starting_token`, bound-check it, slice `[start, end)` and emit the next
token. -/
def listSnapshotsPaginate (snapshots : List Snapshot) (startingToken : String)
    (maxEntries : Int) : Except CSIError ListSnapshotsResponse :=
  let n : Int := snapshots.length
  let startRes : Except CSIError Int :=
    if startingToken = "" then .ok 0
    else
      match goAtoi startingToken with
      | none => .error ⟨.aborted, "Invalid startingToken"⟩
      | some s =>
        if s < 0 ∨ s > n then .error ⟨.aborted, "Invalid startingToken"⟩ else .ok s
  match startRes with
  | .error e => .error e
  | .ok start =>
    let endIdx := if maxEntries > 0 ∧ start + maxEntries < n then start + maxEntries else n
    let nextToken := if endIdx < n then goFormatInt endIdx else ""
    let entries :=
      ((snapshots.drop start.toNat).take (endIdx - start).toNat).map snapshotEntry
    .ok ⟨entries, nextToken⟩

/-- Iterated `ListSnapshots` paging: call the RPC, and while a non-empty
`next_token` comes back, call again with it as the `starting_token`,
concatenating the entries. Fuel-indexed for termination; `none` on an error
or on fuel exhaustion. -/
def walkPages (snapshots : List Snapshot) (maxEntries : Int) :
    Nat → String → Option (List ListSnapshotsEntry)
  | 0, _ => none
  | fuel + 1, token =>
    match listSnapshotsPaginate snapshots token maxEntries with
    | .error _ => none
    | .ok resp =>
      if resp.nextToken = "" then some resp.entries
      else
        match walkPages snapshots maxEntries fuel resp.nextToken with
        | none => none
        | some rest => some (resp.entries ++ rest)

/-! ## Shared small lemmas -/

theorem goFormatInt_ne_empty (i : Int) : goFormatInt i ≠ "" := by
  unfold goFormatInt
  by_cases h : i < 0
  · rw [if_pos h]
    intro hc
    exact List.cons_ne_nil _ _ (congrArg String.data hc)
  · rw [if_neg h]
    intro hc
    exact natDigits_ne_nil _ (congrArg String.data hc)

/-! ## C9 -/

/-- C9: `diskUUIDToSerial` removes all hyphens and, when the hyphen-free
result has 20 or more characters, returns exactly its first 20 characters,
otherwise returns it unchanged; the UUID `ace9f28b-3081-40c1-8353-4cc3e3014072`
maps to the serial `ace9f28b308140c18353`. -/
theorem diskUUIDToSerial_spec (uuid : String) :
    (stringsReplaceAllHyphen uuid).toList = uuid.toList.filter (fun c => c ≠ '-')
  ∧ (20 ≤ (stringsReplaceAllHyphen uuid).length →
      diskUUIDToSerial uuid = String.mk ((stringsReplaceAllHyphen uuid).toList.take 20))
  ∧ ((stringsReplaceAllHyphen uuid).length < 20 →
      diskUUIDToSerial uuid = stringsReplaceAllHyphen uuid)
  ∧ diskUUIDToSerial "ace9f28b-3081-40c1-8353-4cc3e3014072" = "ace9f28b308140c18353" := by
  refine ⟨rfl, ?_, ?_, by decide⟩
  · intro h
    unfold diskUUIDToSerial
    rw [if_neg (by omega)]
  · intro h
    unfold diskUUIDToSerial
    rw [if_pos h]

/-- Witness for C9 at the concrete UUID of the spec scenario. -/
theorem diskUUIDToSerial_spec_witness :
    diskUUIDToSerial "ace9f28b-3081-40c1-8353-4cc3e3014072" =
      String.mk ((stringsReplaceAllHyphen "ace9f28b-3081-40c1-8353-4cc3e3014072").toList.take 20) :=
  (diskUUIDToSerial_spec "ace9f28b-3081-40c1-8353-4cc3e3014072").2.1 (by decide)

/-! ## C2 -/

/-- The provisioned size in GiB exactly as C2 states it: `ceil(required / 2^30)`,
defaulting to 1 when `required` is zero. -/
def claimSizeGiB (requiredBytes : Int) : Int :=
  if requiredBytes = 0 then 1 else ceilDivGiB requiredBytes

theorem roundUp_default_eq_claimSizeGiB (b : Int) (hb : 0 ≤ b) :
    (if RoundUpBytesToGB b = 0 then 1 else RoundUpBytesToGB b) = claimSizeGiB b := by
  unfold claimSizeGiB RoundUpBytesToGB ceilDivGiB giB
  split_ifs <;> omega

/-- C2: for a `CreateVolume` request that must create a new volume, with a
capacity range present the provisioned size in GiB is `ceil(required / 2^30)`
(1 when `required` is 0); with no capacity range the size is 1 GiB; and with
`limit > 0` and `sizeGiB·2^30 > limit` the RPC fails (the controller wraps
this error as `InvalidArgument`). The four concrete spec vectors are
included. The CSI spec requires non-negative capacity-range fields, hence
the hypothesis. -/
theorem determineSize_spec (capacityRange : Option CapacityRange)
    (hnonneg : ∀ cr, capacityRange = some cr → 0 ≤ cr.requiredBytes) :
    (capacityRange = none → determineSize capacityRange = .ok 1)
  ∧ (∀ cr, capacityRange = some cr →
      (¬ (cr.limitBytes > 0 ∧ claimSizeGiB cr.requiredBytes * 2 ^ 30 > cr.limitBytes) →
        determineSize capacityRange = .ok (claimSizeGiB cr.requiredBytes))
    ∧ ((cr.limitBytes > 0 ∧ claimSizeGiB cr.requiredBytes * 2 ^ 30 > cr.limitBytes) →
        ∃ msg, determineSize capacityRange = .error msg))
  ∧ determineSize (some ⟨50 * 2 ^ 30, 0⟩) = .ok 50
  ∧ determineSize (some ⟨25 * 2 ^ 30, 100 * 2 ^ 30⟩) = .ok 25
  ∧ (∃ msg, determineSize (some ⟨3 * 10 ^ 9, 3 * 10 ^ 9⟩) = .error msg)
  ∧ determineSize none = .ok 1 := by
  refine ⟨?_, ?_, by rfl, by rfl,
    ⟨"after round-up, volume size exceeds the limit specified", by rfl⟩, rfl⟩
  · intro h; rw [h]; rfl
  · intro cr hcr
    have hb : 0 ≤ cr.requiredBytes := hnonneg cr hcr
    subst hcr
    simp only [determineSize]
    rw [roundUp_default_eq_claimSizeGiB cr.requiredBytes hb]
    have hgb : GigaBytesToBytes (claimSizeGiB cr.requiredBytes) =
        claimSizeGiB cr.requiredBytes * 2 ^ 30 := by
      unfold GigaBytesToBytes giB; norm_num
    constructor
    · intro hno
      rw [if_neg (by rw [hgb]; exact hno)]
    · intro hyes
      exact ⟨_, by rw [if_pos (by rw [hgb]; exact hyes)]⟩

/-- Witness for C2 at `CapacityRange{required = 50·2^30, limit = 0}`. -/
theorem determineSize_spec_witness :
    determineSize (some ⟨50 * 2 ^ 30, 0⟩) = .ok 50 :=
  (determineSize_spec (some ⟨50 * 2 ^ 30, 0⟩)
    (by intro cr hcr; cases hcr; norm_num)).2.2.1

/-! ## C6 -/

/-- C6: if the volume's current cloud state is neither `Allocated` nor
`Ready`, `client.ExpandVolume` fails (with the precondition-failure error the
spec labels `FailedPrecondition`) and the cloud resize operation is never
invoked. -/
theorem clientExpandVolume_state_precondition
    (getVolume : Except String APIVolume) (resize : Int → Except String Unit)
    (newSizeInGB : Int) (volume : APIVolume)
    (hget : getVolume = .ok volume)
    (hstate1 : volume.State ≠ "Allocated") (hstate2 : volume.State ≠ "Ready") :
    clientExpandVolume getVolume resize newSizeInGB =
      ⟨.error .notAllocatedOrReady, false⟩ := by
  subst hget
  simp only [clientExpandVolume]
  rw [if_pos ⟨hstate1, hstate2⟩]

/-- Witness for C6 on a volume in state `Destroyed`. -/
theorem clientExpandVolume_state_precondition_witness :
    clientExpandVolume (.ok ⟨"id", "v", 0, "", "", "", "", "", 0, "Destroyed"⟩)
      (fun _ => .ok ()) 5 = ⟨.error .notAllocatedOrReady, false⟩ :=
  clientExpandVolume_state_precondition _ (fun _ => .ok ()) 5
    ⟨"id", "v", 0, "", "", "", "", "", 0, "Destroyed"⟩ rfl (by decide) (by decide)

/-! ## C7 -/

/-- C7 counterexample: the `Volume` built by the connector's conversion from
a detached raw API volume (`Virtualmachineid = ""`, `Deviceid = 0`) has an
empty `VirtualMachineID` but `DeviceID = "0" ≠ ""`, refuting the claimed
equivalence `VirtualMachineID = "" ↔ DeviceID = ""`. -/
theorem volumeFromAPI_deviceID_counterexample :
    ¬ (((volumeFromAPI ⟨"vol-1", "v", 1073741824, "off", "dom", "proj", "zone", "", 0,
        "Ready"⟩).VirtualMachineID = "") ↔
       ((volumeFromAPI ⟨"vol-1", "v", 1073741824, "off", "dom", "proj", "zone", "", 0,
        "Ready"⟩).DeviceID = "")) := by
  decide

/-- C7 amended: for every `Volume` the connector conversion returns,
`DeviceID` is the decimal string of the raw `Deviceid` field and is therefore
never empty (`"0"` for a detached volume), while `VirtualMachineID` is
carried over unchanged; the claimed equivalence with an empty
`VirtualMachineID` does not hold. -/
theorem volumeFromAPI_deviceID_amended (vol : APIVolume) :
    (volumeFromAPI vol).DeviceID = goFormatInt vol.Deviceid
  ∧ (volumeFromAPI vol).DeviceID ≠ ""
  ∧ (volumeFromAPI vol).VirtualMachineID = vol.Virtualmachineid := by
  exact ⟨rfl, goFormatInt_ne_empty vol.Deviceid, rfl⟩

/-! ## C3 -/

/-- C3: for a `DeleteVolume` request with a non-empty volume id (and no lock
contention), the RPC returns success both when the underlying cloud delete
succeeds and when it fails with a message containing `4350` (which the
connector remaps to `NotFound`), while every other cloud error yields code
`Internal`. -/
theorem deleteVolume_spec (rawDelete : String → Option String) (volumeID : String)
    (hid : volumeID ≠ "") :
    (rawDelete volumeID = none →
      controllerDeleteVolume (fun id => clientDeleteVolume (rawDelete id)) volumeID =
        .ok ())
  ∧ (∀ msg, rawDelete volumeID = some msg → stringsContains msg "4350" = true →
      controllerDeleteVolume (fun id => clientDeleteVolume (rawDelete id)) volumeID =
        .ok ())
  ∧ (∀ msg, rawDelete volumeID = some msg → stringsContains msg "4350" = false →
      controllerDeleteVolume (fun id => clientDeleteVolume (rawDelete id)) volumeID =
        .error ⟨.internal, "Cannot delete volume"⟩) := by
  refine ⟨?_, ?_, ?_⟩
  · intro hraw
    unfold controllerDeleteVolume
    rw [if_neg hid]
    simp only [clientDeleteVolume, hraw]
  · intro msg hraw h4350
    unfold controllerDeleteVolume
    rw [if_neg hid]
    simp only [clientDeleteVolume, hraw, h4350, if_true]
    rfl
  · intro msg hraw h4350
    unfold controllerDeleteVolume
    rw [if_neg hid]
    simp only [clientDeleteVolume, hraw, h4350]
    rfl

/-- Witness for C3: a cloud error mentioning 4350 is treated as success. -/
theorem deleteVolume_spec_witness :
    controllerDeleteVolume
      (fun id => clientDeleteVolume
        ((fun _ => some "CloudStack API error 4350: unable to find a volume") id))
      "vol-1" = .ok () :=
  (deleteVolume_spec (fun _ => some "CloudStack API error 4350: unable to find a volume")
    "vol-1" (by decide)).2.1 _ rfl (by decide)

/-! ## C10 -/

theorem isValidVolumeCapabilities_false_iff (cs : List VolumeCapability) :
    isValidVolumeCapabilities cs = false ↔
      ∃ c ∈ cs, ∃ m, c.accessMode = some m ∧ m ≠ SINGLE_NODE_WRITER := by
  induction cs with
  | nil => simp [isValidVolumeCapabilities]
  | cons c rest ih =>
    rw [List.exists_mem_cons_iff]
    cases hm : c.accessMode with
    | none =>
      simp only [isValidVolumeCapabilities, hm, ih]
      simp [hm]
    | some m =>
      by_cases hms : m = SINGLE_NODE_WRITER
      · subst hms
        simp only [isValidVolumeCapabilities, hm]
        rw [if_neg (by simp)]
        simp only [hm, Option.some.injEq]
        rw [ih]
        constructor
        · intro h; exact Or.inr h
        · rintro (⟨m, hm', hne⟩ | h)
          · exact absurd hm'.symm hne
          · exact h
      · simp only [isValidVolumeCapabilities, hm]
        rw [if_pos hms]
        simp [hm, hms]

/-- C10: `isValidVolumeCapabilities` returns false exactly when some
capability carries a non-nil access mode different from SINGLE_NODE_WRITER;
a list of capabilities whose access modes are all unset is valid, is
confirmed by `ValidateVolumeCapabilities`, and `CreateVolume` treats such a
request exactly like one with an explicit SINGLE_NODE_WRITER capability (in
particular it is not rejected for its capabilities). -/
theorem volumeCapabilities_unset_spec
    (conn : Connector) (zonePick : Nat) (req : CreateVolumeRequest)
    (caps : List VolumeCapability) (volumeID : String) (vol : Volume)
    (hcaps : caps ≠ []) (hunset : ∀ c ∈ caps, c.accessMode = none)
    (hid : volumeID ≠ "") (hvol : conn.getVolumeByID volumeID = .ok vol) :
    (∀ cs : List VolumeCapability, isValidVolumeCapabilities cs = false ↔
        ∃ c ∈ cs, ∃ m, c.accessMode = some m ∧ m ≠ SINGLE_NODE_WRITER)
  ∧ isValidVolumeCapabilities caps = true
  ∧ validateVolumeCapabilities conn volumeID caps = .ok ⟨true, ""⟩
  ∧ createVolume conn zonePick { req with volumeCapabilities := caps } =
      createVolume conn zonePick
        { req with volumeCapabilities := [⟨some SINGLE_NODE_WRITER⟩] } := by
  have hvalid : isValidVolumeCapabilities caps = true := by
    cases h : isValidVolumeCapabilities caps with
    | false =>
      exfalso
      obtain ⟨c, hc, m, hm, _⟩ := (isValidVolumeCapabilities_false_iff caps).1 h
      rw [hunset c hc] at hm
      cases hm
    | true => rfl
  refine ⟨isValidVolumeCapabilities_false_iff, hvalid, ?_, ?_⟩
  · unfold validateVolumeCapabilities
    rw [if_neg hid, if_neg (by simp [hcaps])]
    rw [hvol]
    simp [hvalid]
  · obtain ⟨nm, vcs, ps, crg, ar, sn⟩ := req
    show createVolume conn zonePick ⟨nm, caps, ps, crg, ar, sn⟩ =
         createVolume conn zonePick ⟨nm, [⟨some SINGLE_NODE_WRITER⟩], ps, crg, ar, sn⟩
    simp only [createVolume]
    by_cases hn : nm = ""
    · rw [if_pos hn, if_pos hn]
    · rw [if_neg hn, if_neg hn]
      rw [if_neg (show ¬ caps.length = 0 by simp [hcaps]),
        if_neg (show ¬ ([(⟨some SINGLE_NODE_WRITER⟩ : VolumeCapability)] :
          List VolumeCapability).length = 0 by simp)]
      rw [if_neg (show ¬ ¬ isValidVolumeCapabilities caps = true from fun h => h hvalid),
        if_neg (show ¬ ¬ isValidVolumeCapabilities
          [(⟨some SINGLE_NODE_WRITER⟩ : VolumeCapability)] = true from fun h => h (by decide))]
      rfl

/-- Sample `cloud.Volume` used by concrete witnesses. -/
def sampleVolume : Volume := ⟨"vol-1", "v", 1073741824, "off", "", "", "zone-1", "", "0"⟩

/-- Sample connector oracle used by concrete witnesses. -/
def sampleConnector : Connector :=
  ⟨fun _ => .error .notFound, fun _ => .ok sampleVolume, fun _ => .error .notFound,
   fun _ _ _ _ _ => .error .notFound, .ok ["zone-1"], fun _ _ _ _ => .ok "vol-new"⟩

/-- Sample `CreateVolumeRequest` used by concrete witnesses. -/
def sampleRequest : CreateVolumeRequest :=
  ⟨"pvc-1", [⟨none⟩], some [(DiskOfferingKey, "off")], none, none, none⟩

/-- Witness for C10: a single capability with an unset access mode is
confirmed. -/
theorem volumeCapabilities_unset_spec_witness :
    validateVolumeCapabilities sampleConnector "vol-1" [⟨none⟩] = .ok ⟨true, ""⟩ :=
  (volumeCapabilities_unset_spec sampleConnector 0 sampleRequest [⟨none⟩] "vol-1"
    sampleVolume (by simp) (by intro c hc; simp only [List.mem_singleton] at hc; rw [hc])
    (by decide) rfl).2.2.1

/-! ## C1 -/

/-- Suitability of an existing volume exactly as C1 words it: same disk
offering; `Size` within each present-and-positive bound of the capacity
range; `ZoneID` equal to the single requisite zone when a requisite topology
is supplied. -/
def claimSuitable (vol : Volume) (diskOfferingID : String)
    (capRange : Option CapacityRange) (tr : Option TopologyRequirement) : Prop :=
  vol.DiskOfferingID = diskOfferingID
  ∧ (∀ cr, capRange = some cr →
      (cr.limitBytes > 0 → vol.Size ≤ cr.limitBytes)
    ∧ (cr.requiredBytes > 0 → cr.requiredBytes ≤ vol.Size))
  ∧ (∀ t l, tr = some t → t.requisite = some l →
      ∃ t0 topo, l = [t0] ∧ NewTopology t0 = .ok topo ∧ topo.ZoneID = vol.ZoneID)

theorem capRangeFailure_none_iff (vol : Volume) (capRange : Option CapacityRange) :
    capRangeFailure vol capRange = none ↔
      ∀ cr, capRange = some cr →
        (cr.limitBytes > 0 → vol.Size ≤ cr.limitBytes) ∧
        (cr.requiredBytes > 0 → cr.requiredBytes ≤ vol.Size) := by
  cases capRange with
  | none => simp [capRangeFailure]
  | some cr =>
    simp only [capRangeFailure, Option.some.injEq, forall_eq']
    split_ifs with h1 h2
    · constructor
      · intro h; exact h.elim
      · intro hP; exact absurd (hP.1 h1.1) (by omega)
    · constructor
      · intro h; exact h.elim
      · intro hP; exact absurd (hP.2 h2.1) (by omega)
    · push_neg at h1 h2
      constructor
      · intro _; exact ⟨h1, h2⟩
      · intro _; rfl

theorem capRangeFailure_some_false (vol : Volume) (capRange : Option CapacityRange)
    (r : Bool × String) (h : capRangeFailure vol capRange = some r) : r.1 = false := by
  cases capRange with
  | none => simp [capRangeFailure] at h
  | some cr =>
    simp only [capRangeFailure] at h
    split_ifs at h <;> cases h <;> rfl

theorem topoSuitable_iff (vol : Volume) (tr : Option TopologyRequirement)
    (hne : ∀ t, tr = some t → t.requisite ≠ some []) :
    ∃ b m, topoSuitable vol tr = some (b, m) ∧
      (b = true ↔ ∀ t l, tr = some t → t.requisite = some l →
        ∃ t0 topo, l = [t0] ∧ NewTopology t0 = .ok topo ∧ topo.ZoneID = vol.ZoneID) := by
  cases tr with
  | none =>
    refine ⟨true, "", rfl, ?_⟩
    simp
  | some t =>
    cases hreq : t.requisite with
    | none =>
      refine ⟨true, "", by simp [topoSuitable, hreq], ?_⟩
      simp only [true_iff]
      intro t' l ht hl
      cases ht
      rw [hreq] at hl
      exact Option.noConfusion hl
    | some l =>
      have hlne : l ≠ [] := fun h => hne t rfl (by rw [hreq, h])
      cases l with
      | nil => exact absurd rfl hlne
      | cons t0 rest =>
        by_cases hlen : (t0 :: rest).length > 1
        · refine ⟨false, "Too many topology requirements",
            by simp only [topoSuitable, hreq]; rw [if_pos hlen], ?_⟩
          constructor
          · intro h; exact Bool.noConfusion h
          · intro hall
            obtain ⟨t0', topo, hsing, -, -⟩ := hall t (t0 :: rest) rfl hreq
            rw [hsing] at hlen
            simp at hlen
        · have hrest : rest = [] := by
            cases rest with
            | nil => rfl
            | cons a as => simp at hlen
          subst hrest
          cases hnt : NewTopology t0 with
          | error e =>
            refine ⟨false, "Cannot parse topology requirements", ?_, ?_⟩
            · simp only [topoSuitable, hreq]
              rw [if_neg hlen]
              simp only [List.head?_cons, hnt]
            · constructor
              · intro h; exact Bool.noConfusion h
              · intro hall
                obtain ⟨t0', topo, hsing, hok, -⟩ := hall t [t0] rfl hreq
                simp only [List.cons.injEq, and_true] at hsing
                rw [← hsing, hnt] at hok
                exact Except.noConfusion hok
          | ok topo =>
            by_cases hz : topo.ZoneID = vol.ZoneID
            · refine ⟨true, "", ?_, ?_⟩
              · simp only [topoSuitable, hreq]
                rw [if_neg hlen]
                simp only [List.head?_cons, hnt]
                rw [if_neg (show ¬ topo.ZoneID ≠ vol.ZoneID from fun h => h hz)]
              · simp only [true_iff]
                intro t' l' ht' hl'
                cases ht'
                rw [hreq] at hl'
                cases hl'
                exact ⟨t0, topo, rfl, hnt, hz⟩
            · refine ⟨false, "Volume in a different zone than requested", ?_, ?_⟩
              · simp only [topoSuitable, hreq]
                rw [if_neg hlen]
                simp only [List.head?_cons, hnt]
                rw [if_pos hz]
              · constructor
                · intro h; exact Bool.noConfusion h
                · intro hall
                  obtain ⟨t0', topo', hsing, hok, hz'⟩ := hall t [t0] rfl hreq
                  simp only [List.cons.injEq, and_true] at hsing
                  rw [← hsing, hnt] at hok
                  cases hok
                  exact (hz hz').elim

theorem checkVolumeSuitable_iff (vol : Volume) (offId : String)
    (capRange : Option CapacityRange) (tr : Option TopologyRequirement)
    (hne : ∀ t, tr = some t → t.requisite ≠ some []) :
    ∃ b m, checkVolumeSuitable vol offId capRange tr = some (b, m) ∧
      (b = true ↔ claimSuitable vol offId capRange tr) := by
  unfold checkVolumeSuitable
  by_cases hoff : vol.DiskOfferingID ≠ offId
  · rw [if_pos hoff]
    refine ⟨false, "Disk offering mismatch", rfl, ?_⟩
    constructor
    · intro h; exact Bool.noConfusion h
    · intro h; exact absurd h.1 hoff
  · push_neg at hoff
    rw [if_neg (show ¬ vol.DiskOfferingID ≠ offId from fun h => h hoff)]
    cases hcf : capRangeFailure vol capRange with
    | some r =>
      have hr1 := capRangeFailure_some_false vol capRange r hcf
      have hcap : ¬ ∀ cr, capRange = some cr →
          (cr.limitBytes > 0 → vol.Size ≤ cr.limitBytes) ∧
          (cr.requiredBytes > 0 → cr.requiredBytes ≤ vol.Size) := by
        intro hP
        rw [(capRangeFailure_none_iff vol capRange).2 hP] at hcf
        exact Option.noConfusion hcf
      obtain ⟨b, m⟩ := r
      simp only at hr1
      subst hr1
      refine ⟨false, m, by simp only [hcf], ?_⟩
      constructor
      · intro h; exact Bool.noConfusion h
      · intro h; exact (hcap h.2.1).elim
    | none =>
      obtain ⟨b, m, hts, hiff⟩ := topoSuitable_iff vol tr hne
      refine ⟨b, m, by simp only [hcf]; exact hts, ?_⟩
      rw [hiff]
      constructor
      · intro htopo
        exact ⟨hoff, (capRangeFailure_none_iff vol capRange).1 hcf, htopo⟩
      · intro h; exact h.2.2

/-- C1: for every `CreateVolume` request that reaches the by-name lookup and
finds an existing volume, the RPC succeeds - without calling the connector's
`CreateVolume` or `CreateVolumeFromSnapshot` - returning the existing
volume's ID, its `Size` as `CapacityBytes` and its `ZoneID` as the sole
accessible topology, exactly when the volume is suitable in the sense of the
claim; otherwise it fails with `AlreadyExists`. (The requisite list, when
present, is non-empty: gRPC decoding never produces a non-nil empty slice.) -/
theorem createVolume_existing_spec (conn : Connector) (zonePick : Nat)
    (req : CreateVolumeRequest) (vol : Volume) (params : List (String × String))
    (hname : req.name ≠ "")
    (hcapsne : req.volumeCapabilities ≠ [])
    (hcapsok : isValidVolumeCapabilities req.volumeCapabilities = true)
    (hparams : req.parameters = some params)
    (hoff : (lookupSeg params DiskOfferingKey).getD "" ≠ "")
    (hfound : conn.getVolumeByName req.name = .ok vol)
    (hreqne : ∀ t, req.accessibilityRequirements = some t → t.requisite ≠ some []) :
    (claimSuitable vol ((lookupSeg params DiskOfferingKey).getD "")
        req.capacityRange req.accessibilityRequirements →
      createVolume conn zonePick req =
        some ⟨.ok ⟨vol.ID, vol.Size, [Topology.toCSI ⟨vol.ZoneID, ""⟩]⟩, false, false⟩)
  ∧ (¬ claimSuitable vol ((lookupSeg params DiskOfferingKey).getD "")
        req.capacityRange req.accessibilityRequirements →
      ∃ msg, createVolume conn zonePick req =
        some ⟨.error ⟨.alreadyExists, msg⟩, false, false⟩) := by
  obtain ⟨b, m, hcvs, hiff⟩ := checkVolumeSuitable_iff vol
    ((lookupSeg params DiskOfferingKey).getD "") req.capacityRange
    req.accessibilityRequirements hreqne
  cases b with
  | true =>
    refine ⟨fun _ => ?_, fun hnsuit => absurd (hiff.1 rfl) hnsuit⟩
    simp only [createVolume]
    rw [if_neg hname,
      if_neg (show ¬ req.volumeCapabilities.length = 0 by simp [hcapsne]),
      if_neg (show ¬ ¬ isValidVolumeCapabilities req.volumeCapabilities = true from
        fun h => h hcapsok)]
    simp only [hparams]
    rw [if_neg hoff]
    simp only [hfound, hcvs]
    rfl
  | false =>
    constructor
    · intro hsuit
      exact absurd (hiff.2 hsuit) (by simp)
    · intro _
      refine ⟨"Volume already exists but does not satisfy request", ?_⟩
      simp only [createVolume]
      rw [if_neg hname,
        if_neg (show ¬ req.volumeCapabilities.length = 0 by simp [hcapsne]),
        if_neg (show ¬ ¬ isValidVolumeCapabilities req.volumeCapabilities = true from
          fun h => h hcapsok)]
      simp only [hparams]
      rw [if_neg hoff]
      simp only [hfound, hcvs]
      rfl

/-- Existing volume of the spec's idempotent re-create scenario. -/
def existingVolume : Volume :=
  ⟨"vol-X", "X", 10 * 1073741824, "offering-O", "", "", "zone-Z", "", "0"⟩

/-- Connector oracle for the idempotent re-create scenario. -/
def existingConnector : Connector :=
  ⟨fun _ => .ok existingVolume, fun _ => .error .notFound, fun _ => .error .notFound,
   fun _ _ _ _ _ => .error .notFound, .ok ["zone-Z"], fun _ _ _ _ => .ok "vol-new"⟩

/-- Re-create request `{name = X, offering = O, range = {0, 0},
topology = requisite(Z)}` of the spec scenario. -/
def recreateRequest : CreateVolumeRequest :=
  ⟨"X", [⟨some SINGLE_NODE_WRITER⟩], some [(DiskOfferingKey, "offering-O")], some ⟨0, 0⟩,
   some ⟨some [⟨some [(ZoneKey, "zone-Z")]⟩]⟩, none⟩

/-- Witness for C1: the idempotent re-create returns the existing volume. -/
theorem createVolume_existing_spec_witness :
    createVolume existingConnector 0 recreateRequest =
      some ⟨.ok ⟨"vol-X", 10 * 1073741824, [Topology.toCSI ⟨"zone-Z", ""⟩]⟩, false, false⟩ :=
  (createVolume_existing_spec existingConnector 0 recreateRequest existingVolume
    [(DiskOfferingKey, "offering-O")]
    (by decide) (by decide) (by decide) rfl (by decide) rfl
    (by
      intro t ht
      simp only [recreateRequest] at ht
      cases ht
      decide)).1
    (by
      refine ⟨rfl, ?_, ?_⟩
      · intro cr hcr
        simp only [recreateRequest] at hcr
        cases hcr
        exact ⟨fun h => absurd h (by decide), fun h => absurd h (by decide)⟩
      · intro t l ht hl
        simp only [recreateRequest] at ht
        cases ht
        cases hl
        exact ⟨⟨some [(ZoneKey, "zone-Z")]⟩, ⟨"zone-Z", ""⟩, rfl, by rfl, rfl⟩)

/-! ## C4 -/

/-- C4: for a `CreateVolume` request carrying a snapshot content source and
no same-name existing volume: a missing snapshot yields `NotFound`;
otherwise `snapshotSizeGiB = ceil(snapshot.Size / 2^30)` is computed from
the snapshot `GetSnapshotByID` returned, the provisioned size is raised to
`snapshotSizeGiB` whenever it exceeds `sizeGiB` (i.e. the bumped size is
their maximum), and `CreateVolumeFromSnapshot` is invoked with the
snapshot's `ZoneID`, the request name, the snapshot's `ProjectID`, the
snapshot ID and the possibly bumped size. -/
theorem createVolume_fromSnapshot_spec (conn : Connector) (zonePick : Nat)
    (req : CreateVolumeRequest) (params : List (String × String)) (sid : String)
    (sizeInGB : Int)
    (hname : req.name ≠ "")
    (hcapsne : req.volumeCapabilities ≠ [])
    (hcapsok : isValidVolumeCapabilities req.volumeCapabilities = true)
    (hparams : req.parameters = some params)
    (hoff : (lookupSeg params DiskOfferingKey).getD "" ≠ "")
    (hnotfound : conn.getVolumeByName req.name = .error .notFound)
    (hsid : req.volumeContentSourceSnapshotID = some sid) (hsidne : sid ≠ "")
    (hsize : determineSize req.capacityRange = .ok sizeInGB) :
    (conn.getSnapshotByID sid = .error .notFound →
      createVolume conn zonePick req =
        some ⟨.error ⟨.notFound, "Snapshot not found"⟩, false, false⟩)
  ∧ (∀ snapshot, conn.getSnapshotByID sid = .ok snapshot →
      createVolume conn zonePick req =
        some ⟨(match conn.createVolumeFromSnapshot snapshot.ZoneID req.name
            snapshot.ProjectID sid (max sizeInGB (RoundUpBytesToGB snapshot.Size)) with
          | .error _ => .error ⟨.internal, "Cannot create volume from snapshot"⟩
          | .ok v => .ok ⟨v.ID, v.Size, [Topology.toCSI ⟨v.ZoneID, ""⟩]⟩),
          false, true⟩) := by
  have hmain : createVolume conn zonePick req =
      createVolumeNew conn zonePick req ((lookupSeg params DiskOfferingKey).getD "") := by
    simp only [createVolume]
    rw [if_neg hname,
      if_neg (show ¬ req.volumeCapabilities.length = 0 by simp [hcapsne]),
      if_neg (show ¬ ¬ isValidVolumeCapabilities req.volumeCapabilities = true from
        fun h => h hcapsok)]
    simp only [hparams]
    rw [if_neg hoff]
    simp only [hnotfound]
    rw [if_neg (show ¬ (ConnErr.notFound ≠ ConnErr.notFound) from fun h => h rfl)]
  constructor
  · intro hmiss
    rw [hmain]
    simp only [createVolumeNew, hsid, Option.getD_some, hsize]
    rw [if_pos hsidne]
    simp only [hmiss]
  · intro snapshot hsnap
    rw [hmain]
    simp only [createVolumeNew, hsid, Option.getD_some, hsize]
    rw [if_pos hsidne]
    simp only [hsnap]
    have hbump : (if RoundUpBytesToGB snapshot.Size > sizeInGB
        then RoundUpBytesToGB snapshot.Size else sizeInGB) =
        max sizeInGB (RoundUpBytesToGB snapshot.Size) := by
      split_ifs with h <;> omega
    rw [hbump]
    cases hc : conn.createVolumeFromSnapshot snapshot.ZoneID req.name snapshot.ProjectID
        sid (max sizeInGB (RoundUpBytesToGB snapshot.Size)) with
    | error e => simp only [hc]
    | ok v => simp only [hc]

/-- Snapshot returned by the connector in the C4 witness scenario. -/
def snapshotSample : Snapshot := ⟨"snap-1", "s", 0, "", "proj-1", "zone-Z", "vol-src", "t"⟩

/-- Volume created from the snapshot in the C4 witness scenario. -/
def snapVolumeSample : Volume :=
  ⟨"vol-from-snap", "pvc-2", 1073741824, "off", "", "", "zone-Z", "", "0"⟩

/-- Connector oracle for the C4 witness scenario. -/
def snapConnector : Connector :=
  ⟨fun _ => .error .notFound, fun _ => .error .notFound, fun _ => .ok snapshotSample,
   fun _ _ _ _ _ => .ok snapVolumeSample, .ok ["zone-Z"], fun _ _ _ _ => .ok "vol-new"⟩

/-- Create-from-snapshot request of the C4 witness scenario. -/
def snapRequest : CreateVolumeRequest :=
  ⟨"pvc-2", [⟨some SINGLE_NODE_WRITER⟩], some [(DiskOfferingKey, "off")], none, none,
   some "snap-1"⟩

/-- Witness for C4: creating from an existing snapshot returns the volume
built by `CreateVolumeFromSnapshot`. -/
theorem createVolume_fromSnapshot_spec_witness :
    createVolume snapConnector 0 snapRequest =
      some ⟨.ok ⟨"vol-from-snap", 1073741824, [Topology.toCSI ⟨"zone-Z", ""⟩]⟩,
        false, true⟩ :=
  (createVolume_fromSnapshot_spec snapConnector 0 snapRequest
    [(DiskOfferingKey, "off")] "snap-1" 1
    (by decide) (by decide) (by decide) rfl (by decide) rfl rfl (by decide) rfl).2
    snapshotSample rfl

/-! ## C5 -/

/-- The end of the returned page exactly as C5 states it:
`min(start + max_entries, n)` when `max_entries > 0`, else `n`. -/
def claimPageEnd (n start : Nat) (maxEntries : Int) : Nat :=
  if maxEntries > 0 then min (start + maxEntries.toNat) n else n

theorem listSnapshotsPaginate_ok (snapshots : List Snapshot) (maxE : Int)
    (token : String) (start : Nat)
    (htok : token = "" ∧ start = 0 ∨ token ≠ "" ∧ goAtoi token = some (start : Int))
    (hstart : start ≤ snapshots.length) :
    listSnapshotsPaginate snapshots token maxE =
      .ok ⟨((snapshots.drop start).take
            (claimPageEnd snapshots.length start maxE - start)).map snapshotEntry,
           if claimPageEnd snapshots.length start maxE < snapshots.length
           then goFormatInt (claimPageEnd snapshots.length start maxE : Int)
           else ""⟩ := by
  have hend : (if maxE > 0 ∧ (start : Int) + maxE < (snapshots.length : Int)
      then (start : Int) + maxE else (snapshots.length : Int)) =
      ((claimPageEnd snapshots.length start maxE : Nat) : Int) := by
    unfold claimPageEnd
    split_ifs <;> push_cast <;> omega
  have hsub : (((claimPageEnd snapshots.length start maxE : Nat) : Int) -
      (start : Int)).toNat = claimPageEnd snapshots.length start maxE - start := by
    omega
  have hstartNat : ((start : Int)).toNat = start := by omega
  have hcmp : (((claimPageEnd snapshots.length start maxE : Nat) : Int) <
      (snapshots.length : Int)) ↔
      claimPageEnd snapshots.length start maxE < snapshots.length := by omega
  simp only [listSnapshotsPaginate]
  rcases htok with ⟨ht, hs⟩ | ⟨ht, hs⟩
  · subst ht hs
    rw [if_pos (Eq.refl ("" : String))]
    simp only [Nat.cast_zero] at hend hsub hstartNat hcmp
    simp only [hend, hsub, hstartNat, hcmp]
  · rw [if_neg ht]
    simp only [hs]
    rw [if_neg (by push_neg; omega)]
    simp only [hend, hsub, hstartNat, hcmp]

theorem walkPages_complete (snapshots : List Snapshot) (maxE : Int)
    (hlen : (snapshots.length : Int) < 2 ^ 63) :
    ∀ fuel (start : Nat) (token : String),
      (token = "" ∧ start = 0 ∨ token = goFormatInt (start : Int)) →
      start ≤ snapshots.length →
      snapshots.length - start < fuel →
      walkPages snapshots maxE fuel token =
        some ((snapshots.drop start).map snapshotEntry) := by
  intro fuel
  induction fuel with
  | zero =>
    intro start token _ _ h2
    omega
  | succ fuel ih =>
    intro start token htok hstart hfuel
    have htok' : token = "" ∧ start = 0 ∨ token ≠ "" ∧ goAtoi token = some (start : Int) := by
      rcases htok with h | h
      · exact Or.inl h
      · refine Or.inr ⟨?_, ?_⟩
        · rw [h]; exact goFormatInt_ne_empty _
        · rw [h]; exact goAtoi_goFormatInt _ (by omega) (by omega)
    have hpage := listSnapshotsPaginate_ok snapshots maxE token start htok' hstart
    show (match listSnapshotsPaginate snapshots token maxE with
      | .error _ => none
      | .ok resp =>
        if resp.nextToken = "" then some resp.entries
        else match walkPages snapshots maxE fuel resp.nextToken with
          | none => none
          | some rest => some (resp.entries ++ rest)) =
      some ((snapshots.drop start).map snapshotEntry)
    simp only [hpage]
    by_cases hlt : claimPageEnd snapshots.length start maxE < snapshots.length
    · have hgt : start < claimPageEnd snapshots.length start maxE := by
        unfold claimPageEnd at hlt ⊢
        split_ifs at hlt ⊢ with h
        · omega
        · omega
      rw [if_pos hlt]
      rw [if_neg (goFormatInt_ne_empty _)]
      rw [ih (claimPageEnd snapshots.length start maxE)
        (goFormatInt (claimPageEnd snapshots.length start maxE : Int))
        (Or.inr rfl) (by omega) (by omega)]
      simp only [Option.some.injEq]
      rw [← List.map_append]
      congr 1
      have hdd : snapshots.drop (claimPageEnd snapshots.length start maxE) =
          (snapshots.drop start).drop
            (claimPageEnd snapshots.length start maxE - start) := by
        rw [List.drop_drop]
        congr 1
        omega
      rw [hdd]
      exact List.take_append_drop _ _
    · rw [if_neg hlt]
      rw [if_pos (Eq.refl ("" : String))]
      have hEnd : claimPageEnd snapshots.length start maxE = snapshots.length := by
        unfold claimPageEnd at hlt ⊢
        split_ifs at hlt ⊢ with h
        · omega
        · omega
      rw [hEnd]
      exact congrArg (some ∘ List.map snapshotEntry)
        (List.take_of_length_le (le_of_eq (List.length_drop start snapshots)))

/-- C5: `ListSnapshots` pagination. A non-empty `starting_token` that does
not parse or parses out of the range `[0, n]` is rejected with `Aborted`;
a valid start yields exactly the slice `[start, end)` of the connector
result (in order, with `end = min(start + max_entries, n)` for positive
`max_entries`, else `n`) and `next_token` is the decimal string of `end`
when `end < n`, else empty; and following `next_token` until it is empty
concatenates to the full connector result in order. -/
theorem listSnapshots_pagination_spec (snapshots : List Snapshot)
    (startingToken : String) (maxEntries : Int)
    (hlen : (snapshots.length : Int) < 2 ^ 63) :
    (startingToken ≠ "" →
      (goAtoi startingToken = none ∨
        ∃ s, goAtoi startingToken = some s ∧ (s < 0 ∨ s > (snapshots.length : Int))) →
      listSnapshotsPaginate snapshots startingToken maxEntries =
        .error ⟨.aborted, "Invalid startingToken"⟩)
  ∧ (∀ s : Int, startingToken ≠ "" → goAtoi startingToken = some s →
      0 ≤ s → s ≤ (snapshots.length : Int) →
      listSnapshotsPaginate snapshots startingToken maxEntries =
        .ok ⟨((snapshots.drop s.toNat).take
              (claimPageEnd snapshots.length s.toNat maxEntries - s.toNat)).map
                snapshotEntry,
             if claimPageEnd snapshots.length s.toNat maxEntries < snapshots.length
             then goFormatInt (claimPageEnd snapshots.length s.toNat maxEntries : Int)
             else ""⟩)
  ∧ (startingToken = "" →
      listSnapshotsPaginate snapshots startingToken maxEntries =
        .ok ⟨((snapshots.drop 0).take
              (claimPageEnd snapshots.length 0 maxEntries - 0)).map snapshotEntry,
             if claimPageEnd snapshots.length 0 maxEntries < snapshots.length
             then goFormatInt (claimPageEnd snapshots.length 0 maxEntries : Int)
             else ""⟩)
  ∧ walkPages snapshots maxEntries (snapshots.length + 1) "" =
      some (snapshots.map snapshotEntry) := by
  refine ⟨?_, ?_, ?_, ?_⟩
  · intro hne hbad
    simp only [listSnapshotsPaginate]
    rw [if_neg hne]
    rcases hbad with hnone | ⟨s, hs, hrange⟩
    · simp only [hnone]
    · simp only [hs]
      rw [if_pos hrange]
  · intro s hne hs h0 hup
    have hcast : ((s.toNat : Nat) : Int) = s := by omega
    have := listSnapshotsPaginate_ok snapshots maxEntries startingToken s.toNat
      (Or.inr ⟨hne, by rw [hcast]; exact hs⟩) (by omega)
    exact this
  · intro hempty
    subst hempty
    exact listSnapshotsPaginate_ok snapshots maxEntries "" 0 (Or.inl ⟨rfl, rfl⟩)
      (Nat.zero_le _)
  · have := walkPages_complete snapshots maxEntries hlen (snapshots.length + 1) 0 ""
      (Or.inl ⟨rfl, rfl⟩) (Nat.zero_le _) (by omega)
    simpa using this

/-- Connector snapshots for the C5 witness. -/
def sampleSnapshots : List Snapshot :=
  [⟨"s1", "n1", 0, "", "", "", "v1", "t1"⟩,
   ⟨"s2", "n2", 0, "", "", "", "v2", "t2"⟩,
   ⟨"s3", "n3", 0, "", "", "", "v3", "t3"⟩]

/-- Witness for C5: walking all pages of a 3-element result with
`max_entries = 2` reproduces the full result in order. -/
theorem listSnapshots_pagination_spec_witness :
    walkPages sampleSnapshots 2 (sampleSnapshots.length + 1) "" =
      some (sampleSnapshots.map snapshotEntry) :=
  (listSnapshots_pagination_spec sampleSnapshots "" 2 (by decide)).2.2.2

end CloudstackCSI
